import Mathlib

/-!
Verification of the Maryland Pull-Out Device Model Prep geometry pipeline.

The development shallowly embeds the boolean-fusion pipeline of the
application's main module: geometry normalization (`prepareGeometryForCSG`),
transform baking (`applyMatrix4`), the ordered union/subtraction chain
(`runBooleans` inside `doProcessAndMerge`), the post-fusion mesh cleanup
(vertex welding plus normal recomputation), the export coordinate correction
(`exportSTL`), and the STL import recentering (`importUserSTL`).

Numeric data is embedded over `ℚ`: every claim under scrutiny is about the
structure and order of the pipeline, attribute synthesis, translation and
exact ±90° rotations, none of which depend on floating-point rounding.

Functions that live in the three.js / three-bvh-csg libraries rather than in
this repository (vertex welding, vertex-normal computation, bounding-box
centering, the CSG evaluator) are either modelled from the specification's
description of them or kept abstract (the evaluator is a parameter), as noted
on each definition.
-/

namespace MarylandPrep

/-- Exact three-component vector standing for a three.js `Vector3`. -/
structure Vec3 where
  x : ℚ
  y : ℚ
  z : ℚ
deriving DecidableEq

/-- Zero vector. -/
def vzero : Vec3 := ⟨0, 0, 0⟩

/-- Componentwise addition. -/
def vadd (a b : Vec3) : Vec3 := ⟨a.x + b.x, a.y + b.y, a.z + b.z⟩

/-- Componentwise subtraction. -/
def vsub (a b : Vec3) : Vec3 := ⟨a.x - b.x, a.y - b.y, a.z - b.z⟩

/-- Cross product, as used for face normals. -/
def cross (a b : Vec3) : Vec3 :=
  ⟨a.y * b.z - a.z * b.y, a.z * b.x - a.x * b.z, a.x * b.y - a.y * b.x⟩

/-- Squared Euclidean distance; comparisons of distances against a
tolerance are made on squares so everything stays in `ℚ`. -/
def distSq (a b : Vec3) : ℚ :=
  (a.x - b.x) ^ 2 + (a.y - b.y) ^ 2 + (a.z - b.z) ^ 2

/-- Buffer geometry, mirroring the attribute layout the source manipulates:
an optional position buffer, optional per-vertex normals, an optional
two-component per-vertex UV buffer and an optional triangle index.
`none` stands for the attribute being absent on the three.js
`BufferGeometry`. -/
structure Geometry where
  position : Option (List Vec3)
  normal : Option (List Vec3)
  uv : Option (List (ℚ × ℚ))
  index : Option (List Nat)
deriving DecidableEq

/-- Consecutive index triples of a triangle index buffer; a trailing
incomplete triple is ignored, as a triangle walk over the buffer would. -/
def triangleTriples : List Nat → List (Nat × Nat × Nat)
  | a :: b :: c :: rest => (a, b, c) :: triangleTriples rest
  | _ => []

/-- Face normal of the triangle `(a, b, c)`: the cross product of its two
edge vectors. -/
def faceNormal (a b c : Vec3) : Vec3 := cross (vsub b a) (vsub c a)

/-- Adds a face's normal into the accumulated per-vertex normals at the
face's three vertex slots. -/
def accumulateFaceNormal (ps : List Vec3) (acc : List Vec3)
    (t : Nat × Nat × Nat) : List Vec3 :=
  let n := faceNormal (ps.getD t.1 vzero) (ps.getD t.2.1 vzero) (ps.getD t.2.2 vzero)
  let acc1 := acc.set t.1 (vadd (acc.getD t.1 vzero) n)
  let acc2 := acc1.set t.2.1 (vadd (acc1.getD t.2.1 vzero) n)
  acc2.set t.2.2 (vadd (acc2.getD t.2.2 vzero) n)

/-- Modelled from the spec: three.js `BufferGeometry.computeVertexNormals`
(library code, not in the repository) — "computes per-vertex normals from
face geometry" by accumulating each face's cross-product normal into the
face's vertices. The final per-vertex unit normalization is omitted (it
divides by an irrational norm); no claim inspects normal magnitudes. -/
def computeVertexNormalsOf (ps : List Vec3) (idx : List Nat) : List Vec3 :=
  (triangleTriples idx).foldl (accumulateFaceNormal ps) (List.replicate ps.length vzero)

/-- Geometry-level `computeVertexNormals`: replaces the normal attribute by
the normals computed from the position buffer and the (possibly implicit
identity) index. A geometry with no position buffer is left unchanged. -/
def computeVertexNormalsGeo (g : Geometry) : Geometry :=
  match g.position with
  | none => g
  | some ps =>
      { g with normal := some (computeVertexNormalsOf ps (g.index.getD (List.range ps.length))) }

/-- Embedding of `prepareGeometryForCSG` (main module, lines 844–882).
Clones the input (value semantics make the clone implicit), returns `none`
when there is no position attribute, otherwise synthesizes in order: an
identity index when non-indexed, computed vertex normals when normals are
absent, and a zero-filled two-component UV buffer when UVs are absent. -/
def prepareGeometryForCSG (geometry : Geometry) : Option Geometry :=
  match geometry.position with
  | none => none
  | some ps =>
      let posCount := ps.length
      let geo1 := if geometry.index.isNone
        then { geometry with index := some (List.range posCount) } else geometry
      let geo2 := if geo1.normal.isNone then computeVertexNormalsGeo geo1 else geo1
      let geo3 := if geo2.uv.isNone
        then { geo2 with uv := some (List.replicate posCount ((0 : ℚ), (0 : ℚ))) } else geo2
      some geo3

/-- Weld tolerance used by the cleanup stage: the literal `0.0001` passed to
`mergeVertices` in `doProcessAndMerge` (line 991). -/
def weldTolerance : ℚ := 1 / 10000

/-- Position of the first entry of `reps` (counting from `k`) whose vertex
lies strictly within the weld tolerance of `v`, if any. -/
def firstMatch (tol : ℚ) (ps : List Vec3) (v : Vec3) : List Nat → Nat → Option Nat
  | [], _ => none
  | r :: rest, k =>
      if distSq (ps.getD r vzero) v < tol * tol then some k
      else firstMatch tol ps v rest (k + 1)

/-- One step of the welding fold over vertex indices: the accumulator holds
the kept representative vertex indices and the map from original vertex
slots to welded slots. Vertex `i` joins the first kept representative whose
position is within the tolerance, otherwise becomes a new representative. -/
def weldStep (tol : ℚ) (ps : List Vec3) (acc : List Nat × List Nat) (i : Nat) :
    List Nat × List Nat :=
  match firstMatch tol ps (ps.getD i vzero) acc.1 0 with
  | some k => (acc.1, acc.2 ++ [k])
  | none => (acc.1 ++ [i], acc.2 ++ [acc.1.length])

/-- Welding pass over a position buffer: returns the kept representative
indices (in first-occurrence order) and the original-slot to welded-slot
remap. -/
def weldVertices (tol : ℚ) (ps : List Vec3) : List Nat × List Nat :=
  (List.range ps.length).foldl (weldStep tol ps) ([], [])

/-- Gathers the entries of `xs` selected by `keep`, in order. -/
def gatherAt {α : Type} (keep : List Nat) (xs : List α) (dflt : α) : List α :=
  keep.map (fun i => xs.getD i dflt)

/-- Modelled from the spec: `BufferGeometryUtils.mergeVertices` (three.js
library code, not in the repository) — "merges vertices whose positions are
within a fixed small distance tolerance into a single vertex, re-indexing
triangles accordingly". Each vertex is merged into the first kept vertex
within the distance tolerance of its position; surviving vertices keep their
attributes and the triangle index is rewritten through the remap (a
non-indexed geometry is treated through its implicit identity index). -/
def mergeVertices (g : Geometry) (tol : ℚ) : Geometry :=
  match g.position with
  | none => g
  | some ps =>
      let keep := (weldVertices tol ps).1
      let remap := (weldVertices tol ps).2
      { position := some (gatherAt keep ps vzero)
        normal := g.normal.map (fun ns => gatherAt keep ns vzero)
        uv := g.uv.map (fun us => gatherAt keep us ((0 : ℚ), (0 : ℚ)))
        index := some ((g.index.getD (List.range ps.length)).map (fun i => remap.getD i 0)) }

/-- The cleanup stage of `doProcessAndMerge` (lines 989–996): vertex welding
at the fixed `0.0001` tolerance followed by vertex-normal recomputation on
the welded topology. -/
def cleanupGeometry (g : Geometry) : Geometry :=
  computeVertexNormalsGeo (mergeVertices g weldTolerance)

/-- Row-major 4×4 matrix standing for a three.js `Matrix4`. -/
structure Mat4 where
  a11 : ℚ
  a12 : ℚ
  a13 : ℚ
  a14 : ℚ
  a21 : ℚ
  a22 : ℚ
  a23 : ℚ
  a24 : ℚ
  a31 : ℚ
  a32 : ℚ
  a33 : ℚ
  a34 : ℚ
  a41 : ℚ
  a42 : ℚ
  a43 : ℚ
  a44 : ℚ
deriving DecidableEq

/-- Identity matrix. -/
def identityMat4 : Mat4 := ⟨1,0,0,0, 0,1,0,0, 0,0,1,0, 0,0,0,1⟩

/-- Matrix product. -/
def matMul (m n : Mat4) : Mat4 :=
  ⟨m.a11*n.a11 + m.a12*n.a21 + m.a13*n.a31 + m.a14*n.a41,
   m.a11*n.a12 + m.a12*n.a22 + m.a13*n.a32 + m.a14*n.a42,
   m.a11*n.a13 + m.a12*n.a23 + m.a13*n.a33 + m.a14*n.a43,
   m.a11*n.a14 + m.a12*n.a24 + m.a13*n.a34 + m.a14*n.a44,
   m.a21*n.a11 + m.a22*n.a21 + m.a23*n.a31 + m.a24*n.a41,
   m.a21*n.a12 + m.a22*n.a22 + m.a23*n.a32 + m.a24*n.a42,
   m.a21*n.a13 + m.a22*n.a23 + m.a23*n.a33 + m.a24*n.a43,
   m.a21*n.a14 + m.a22*n.a24 + m.a23*n.a34 + m.a24*n.a44,
   m.a31*n.a11 + m.a32*n.a21 + m.a33*n.a31 + m.a34*n.a41,
   m.a31*n.a12 + m.a32*n.a22 + m.a33*n.a32 + m.a34*n.a42,
   m.a31*n.a13 + m.a32*n.a23 + m.a33*n.a33 + m.a34*n.a43,
   m.a31*n.a14 + m.a32*n.a24 + m.a33*n.a34 + m.a34*n.a44,
   m.a41*n.a11 + m.a42*n.a21 + m.a43*n.a31 + m.a44*n.a41,
   m.a41*n.a12 + m.a42*n.a22 + m.a43*n.a32 + m.a44*n.a42,
   m.a41*n.a13 + m.a42*n.a23 + m.a43*n.a33 + m.a44*n.a43,
   m.a41*n.a14 + m.a42*n.a24 + m.a43*n.a34 + m.a44*n.a44⟩

/-- Applies a matrix to a point the way three.js `Vector3.applyMatrix4`
does: affine action with perspective divide. All matrices appearing in the
claims are affine (last row `0 0 0 1`), so the divisor is `1`. -/
def applyMat4Point (m : Mat4) (v : Vec3) : Vec3 :=
  let w := m.a41 * v.x + m.a42 * v.y + m.a43 * v.z + m.a44
  ⟨(m.a11 * v.x + m.a12 * v.y + m.a13 * v.z + m.a14) / w,
   (m.a21 * v.x + m.a22 * v.y + m.a23 * v.z + m.a24) / w,
   (m.a31 * v.x + m.a32 * v.y + m.a33 * v.z + m.a34) / w⟩

/-- Geometry-level `applyMatrix4`: bakes the matrix into every vertex
position. The three.js version also maps normals through the normal matrix;
that channel is omitted here since no claim inspects baked normals (the
pipeline recomputes normals before the geometry is used). -/
def applyMatrix4 (m : Mat4) (g : Geometry) : Geometry :=
  { g with position := g.position.map (List.map (applyMat4Point m)) }

/-- The matrix `new THREE.Matrix4().makeRotationX(degToRad(90))` from
`exportSTL` (line 1183): rotation by +90° about X, whose cosine is `0` and
sine is `1`, both exact in `ℚ`. -/
def makeRotationX90 : Mat4 := ⟨1,0,0,0, 0,0,-1,0, 0,1,0,0, 0,0,0,1⟩

/-- Rotation matrix of the working orientation offset
`MODEL_ROTATION_OFFSET` (lines 41–45): −90° about X (cosine `0`,
sine `−1`). -/
def modelRotationOffsetMatrix : Mat4 := ⟨1,0,0,0, 0,0,1,0, 0,-1,0,0, 0,0,0,1⟩

/-- Boolean operation selector of three-bvh-csg; only the two operations the
pipeline uses. -/
inductive CSGOp where
  | ADDITION
  | SUBTRACTION
deriving DecidableEq

/-- The CSG evaluator (`csgEvaluator.evaluate`) is three-bvh-csg library
code and is kept abstract: any function from two operand geometries and an
operation to either a result geometry or a thrown error message. -/
def Evaluator : Type := Geometry → Geometry → CSGOp → Except String Geometry

/-- Scene mesh as the pipeline sees it: its geometry (possibly absent, as
the source's `mesh?.geometry` guards allow), its local position and Euler
rotation, and its current world matrix. `matrixWorld` is taken as
authoritative and up to date: `doProcessAndMerge` calls
`updateMatrixWorld(true)` on every participant before reading it. -/
structure Mesh where
  geometry : Option Geometry
  position : Vec3
  rotation : Vec3
  matrixWorld : Mat4
deriving DecidableEq

/-- The rig sub-state relevant to fusion: the ordered screw-mesh collection,
the base-trim mesh and the filler mesh. -/
structure RigState where
  screwMeshes : List Mesh
  baseTrim : Option Mesh
  fillerTransform : Option Mesh
deriving DecidableEq

/-- Application state projected onto what the fusion and export claims
touch: the user model, the rig, the processed flag, whether the export
button is enabled, and the instruction line shown to the user. -/
structure AppState where
  userModel : Option Mesh
  rig : RigState
  isProcessed : Bool
  exportEnabled : Bool
  instruction : String
deriving DecidableEq

/-- Baking of an operand mesh's world transform into a prepared geometry:
`geo.applyMatrix4(mesh.matrixWorld)` as done for every operand in
`doProcessAndMerge`. -/
def bakeOperand (m : Mesh) (g : Geometry) : Geometry := applyMatrix4 m.matrixWorld g

/-- Step 1 of `doProcessAndMerge` (lines 928–939): prepare the user model's
geometry and bake its world transform; a preparation failure (or an absent
geometry object, which would throw inside the same `try`) aborts with the
source's error message. -/
def prepUserModel (um : Mesh) : Except String Geometry :=
  match um.geometry with
  | none => Except.error "User model geometry preparation failed"
  | some g =>
      match prepareGeometryForCSG g with
      | none => Except.error "User model geometry preparation failed"
      | some mg => Except.ok (bakeOperand um mg)

/-- Step 2 of `doProcessAndMerge` (lines 941–955): if the filler mesh exists
and has a geometry that prepares successfully, bake it and union it into the
running composite; otherwise the step is skipped. -/
def fillerStep (ev : Evaluator) (filler : Option Mesh) (acc : Geometry) :
    Except String Geometry :=
  match filler with
  | none => Except.ok acc
  | some f =>
      match f.geometry with
      | none => Except.ok acc
      | some fg =>
          match prepareGeometryForCSG fg with
          | none => Except.ok acc
          | some pg => ev acc (bakeOperand f pg) CSGOp.ADDITION

/-- Step 3 of `doProcessAndMerge` (lines 957–968): if the base-trim mesh
exists and has a geometry that prepares successfully, bake it and subtract
it from the running composite; otherwise the step is skipped. -/
def baseTrimStep (ev : Evaluator) (baseTrim : Option Mesh) (acc : Geometry) :
    Except String Geometry :=
  match baseTrim with
  | none => Except.ok acc
  | some bt =>
      match bt.geometry with
      | none => Except.ok acc
      | some bg =>
          match prepareGeometryForCSG bg with
          | none => Except.ok acc
          | some pg => ev acc (bakeOperand bt pg) CSGOp.SUBTRACTION

/-- Loop body of step 4 of `doProcessAndMerge` (lines 970–985): a screw mesh
with a missing geometry or a failing preparation is skipped, otherwise its
baked solid is subtracted from the running composite. An error already in
the accumulator propagates (the source's exception unwinds the loop). -/
def screwStep (ev : Evaluator) (acc : Except String Geometry) (m : Mesh) :
    Except String Geometry :=
  match acc with
  | Except.error e => Except.error e
  | Except.ok r =>
      match m.geometry with
      | none => Except.ok r
      | some sg =>
          match prepareGeometryForCSG sg with
          | none => Except.ok r
          | some pg => ev r (bakeOperand m pg) CSGOp.SUBTRACTION

/-- The boolean phase of `doProcessAndMerge` (lines 928–985): user-model
preparation, optional filler union, optional base-trim subtraction, then the
screw subtraction loop in the collection's stored order. -/
def runBooleans (ev : Evaluator) (um : Mesh) (filler baseTrim : Option Mesh)
    (screws : List Mesh) : Except String Geometry :=
  match prepUserModel um with
  | Except.error e => Except.error e
  | Except.ok g0 =>
      match fillerStep ev filler g0 with
      | Except.error e => Except.error e
      | Except.ok g1 =>
          match baseTrimStep ev baseTrim g1 with
          | Except.error e => Except.error e
          | Except.ok g2 => screws.foldl (screwStep ev) (Except.ok g2)

/-- Embedding of `doProcessAndMerge` (lines 906–1090). On success the
cleaned composite replaces the user model's geometry in place, its position
and rotation are reset to identity (and hence its world matrix, recomputed
from them, becomes the identity), the processed flag is set, export is
enabled and the completion instruction is shown. On a thrown error the state
is left untouched except for the surfaced error instruction. The `none`
case mirrors the `processAndMerge` guard refusing to run without a model. -/
def doProcessAndMerge (ev : Evaluator) (s : AppState) : AppState :=
  match s.userModel with
  | none => { s with instruction := "Please import a model first." }
  | some um =>
      match runBooleans ev um s.rig.fillerTransform s.rig.baseTrim s.rig.screwMeshes with
      | Except.error msg =>
          { s with instruction := "Boolean failed: " ++ msg ++ ". Check console." }
      | Except.ok res =>
          { s with
            userModel := some { um with
              geometry := some (cleanupGeometry res)
              position := vzero
              rotation := vzero
              matrixWorld := identityMat4 }
            isProcessed := true
            exportEnabled := true
            instruction := "Processing complete! Click Export STL to download. Use Reset to start over." }

/-- Specification-shaped view of one optional operand: the prepared, baked
geometry paired with its boolean operation, or `none` when the mesh's
geometry is missing or fails preparation. -/
def operandOf (op : CSGOp) (m : Mesh) : Option (Geometry × CSGOp) :=
  (m.geometry.bind prepareGeometryForCSG).map (fun g => (bakeOperand m g, op))

/-- The fixed operation schedule the spec describes: filler union first (when
present), then base-trim subtraction (when present), then every screw-hole
subtraction in stored order, with unpreparable entries dropped. -/
def fuseOps (filler baseTrim : Option Mesh) (screws : List Mesh) :
    List (Geometry × CSGOp) :=
  (filler.bind (operandOf CSGOp.ADDITION)).toList
    ++ (baseTrim.bind (operandOf CSGOp.SUBTRACTION)).toList
    ++ screws.filterMap (operandOf CSGOp.SUBTRACTION)

/-- Sequential evaluation of an operation schedule against a running
composite; the first evaluator error aborts the chain. -/
def applyOps (ev : Evaluator) : List (Geometry × CSGOp) → Geometry → Except String Geometry
  | [], g => Except.ok g
  | p :: rest, g =>
      match ev g p.1 p.2 with
      | Except.error e => Except.error e
      | Except.ok g2 => applyOps ev rest g2

/-- Embedding of the geometry-producing part of `exportSTL`
(lines 1138–1185): refuses without a model, before processing, or on a
missing/empty position buffer; otherwise clones the working geometry, bakes
the user model's current world matrix into the clone and applies the +90°
X rotation. The working geometry itself is untouched (the function only
reads the state). -/
def exportSTL (s : AppState) : Option Geometry :=
  match s.userModel with
  | none => none
  | some um =>
      if s.isProcessed then
        match um.geometry with
        | none => none
        | some g =>
            match g.position with
            | none => none
            | some ps =>
                if ps.length = 0 then none
                else some (applyMatrix4 makeRotationX90 (applyMatrix4 um.matrixWorld g))
      else none

/-- Componentwise minimum. -/
def vmin (a b : Vec3) : Vec3 := ⟨min a.x b.x, min a.y b.y, min a.z b.z⟩

/-- Componentwise maximum. -/
def vmax (a b : Vec3) : Vec3 := ⟨max a.x b.x, max a.y b.y, max a.z b.z⟩

/-- Center of the axis-aligned bounding box of a nonempty vertex list; the
zero vector for an empty list (three.js leaves an empty box centered at the
origin's degenerate value; no claim evaluates this case). -/
def bboxCenter (ps : List Vec3) : Vec3 :=
  match ps with
  | [] => vzero
  | v :: rest =>
      let mn := rest.foldl vmin v
      let mx := rest.foldl vmax v
      ⟨(mn.x + mx.x) / 2, (mn.y + mx.y) / 2, (mn.z + mx.z) / 2⟩

/-- Modelled from the spec: three.js `BufferGeometry.center` (library code,
not in the repository; the call site's comment reads "Center the geometry")
— translates every vertex position by the negated bounding-box center so
the bounding box becomes centered at the origin. -/
def centerGeometry (g : Geometry) : Geometry :=
  match g.position with
  | none => g
  | some ps =>
      let c := bboxCenter ps
      { g with position := some (ps.map (fun v => vsub v c)) }

/-- Geometry part of `importUserSTL`'s load handler (lines 790–794): the
parsed STL geometry gets vertex normals computed and is then recentered
before the user-model mesh is built from it. -/
def importUserSTL (parsed : Geometry) : Geometry :=
  centerGeometry (computeVertexNormalsGeo parsed)

/-! Concrete fixtures used by the witness theorems: a single world-space
triangle, meshes built from it, and small app states. -/

/-- Single right triangle in the XY plane, non-indexed, without normals or
UVs — the shape an STL parse delivers. -/
def triGeo : Geometry :=
  { position := some [⟨0, 0, 0⟩, ⟨1, 0, 0⟩, ⟨0, 1, 0⟩]
    normal := none
    uv := none
    index := none }

/-- Geometry with no position buffer at all. -/
def noPositionGeo : Geometry :=
  { position := none, normal := none, uv := none, index := none }

/-- Translation by one unit along X. -/
def translate1X : Mat4 := ⟨1,0,0,1, 0,1,0,0, 0,0,1,0, 0,0,0,1⟩

/-- User-model mesh sitting at the origin with an identity world matrix. -/
def umT : Mesh :=
  { geometry := some triGeo, position := vzero, rotation := vzero, matrixWorld := identityMat4 }

/-- Evaluator that always succeeds, returning its left operand. -/
def okEvaluator : Evaluator := fun a _ _ => Except.ok a

/-- Evaluator that always throws, standing for a numerically degenerate
boolean evaluation. -/
def throwingEvaluator : Evaluator := fun _ _ _ => Except.error "degenerate operand"

/-- App state holding only the user model, with an empty rig. -/
def sT : AppState :=
  { userModel := some umT
    rig := { screwMeshes := [], baseTrim := none, fillerTransform := none }
    isProcessed := false
    exportEnabled := false
    instruction := "" }

/-- The composite the boolean phase returns on `sT`: the prepared user-model
triangle baked with the identity world matrix. -/
def resT : Geometry := bakeOperand umT ((prepareGeometryForCSG triGeo).getD triGeo)

/-! Helper lemmas shared by the claim theorems. -/

/-- Normal recomputation never touches the position buffer. -/
theorem computeVertexNormalsGeo_position (g : Geometry) :
    (computeVertexNormalsGeo g).position = g.position := by
  obtain ⟨gp, gn, gu, gi⟩ := g
  cases gp <;> rfl

/-- Normal recomputation never touches the index buffer. -/
theorem computeVertexNormalsGeo_index (g : Geometry) :
    (computeVertexNormalsGeo g).index = g.index := by
  obtain ⟨gp, gn, gu, gi⟩ := g
  cases gp <;> rfl

/-- Claim C8. Geometry normalization (`prepareGeometryForCSG`) fails,
returning `null`, exactly when the input has no position buffer; on every
input with a position buffer it succeeds, and the successful result carries
the input's position buffer unchanged (the function operates on a clone, so
the input itself is never mutated — in this value-semantics embedding the
input is untouched by construction). -/
theorem prepare_fails_iff_no_position (g : Geometry) :
    (prepareGeometryForCSG g = none ↔ g.position = none) ∧
    (∀ g2 : Geometry, prepareGeometryForCSG g = some g2 → g2.position = g.position) := by
  unfold prepareGeometryForCSG
  cases hp : g.position with
  | none => simp [hp]
  | some ps =>
      simp only [hp]
      constructor
      · simp
      · intro g2 hres
        have hres2 := (Option.some_injective _ hres.symm)
        subst hres2
        split_ifs <;>
          simp_all [computeVertexNormalsGeo_position, hp]

/-- Witness for C8: normalization of a geometry with no position buffer
fails, and normalization of a bare triangle succeeds with the position
buffer carried over. -/
theorem prepare_fails_iff_no_position_witness :
    prepareGeometryForCSG noPositionGeo = none ∧
    ((prepareGeometryForCSG triGeo).getD triGeo).position = triGeo.position :=
  ⟨(prepare_fails_iff_no_position noPositionGeo).1.mpr rfl,
   (prepare_fails_iff_no_position triGeo).2 ((prepareGeometryForCSG triGeo).getD triGeo) rfl⟩

/-- Claim C9. When normalization succeeds on an input with `n` vertices: a
non-indexed input receives the identity index `[0, …, n−1]`; an input
without normals receives per-vertex normals computed from face geometry; an
input without UVs receives a zero-filled two-component UV buffer with one
entry per vertex. -/
theorem prepare_synthesizes_attributes (g : Geometry) (ps : List Vec3) (g2 : Geometry)
    (hp : g.position = some ps)
    (hres : prepareGeometryForCSG g = some g2) :
    (g.index = none → g2.index = some (List.range ps.length)) ∧
    (g.normal = none →
      g2.normal = some (computeVertexNormalsOf ps (g.index.getD (List.range ps.length)))) ∧
    (g.uv = none → g2.uv = some (List.replicate ps.length ((0 : ℚ), (0 : ℚ)))) := by
  obtain ⟨gp, gn, gu, gi⟩ := g
  simp only at hp
  subst hp
  cases gi <;> cases gn <;> cases gu <;>
    simp_all [prepareGeometryForCSG, computeVertexNormalsGeo] <;>
    (subst hres; simp)

/-- Witness for C9: normalizing the bare (non-indexed, normal-less, UV-less)
triangle yields the identity index of length three, face-computed normals
and three zero UV entries. -/
theorem prepare_synthesizes_attributes_witness :
    ((prepareGeometryForCSG triGeo).getD triGeo).index = some [0, 1, 2] ∧
    ((prepareGeometryForCSG triGeo).getD triGeo).normal =
      some (computeVertexNormalsOf [⟨0, 0, 0⟩, ⟨1, 0, 0⟩, ⟨0, 1, 0⟩] [0, 1, 2]) ∧
    ((prepareGeometryForCSG triGeo).getD triGeo).uv =
      some [((0 : ℚ), (0 : ℚ)), (0, 0), (0, 0)] := by
  have h := prepare_synthesizes_attributes triGeo [⟨0, 0, 0⟩, ⟨1, 0, 0⟩, ⟨0, 1, 0⟩]
    ((prepareGeometryForCSG triGeo).getD triGeo) rfl rfl
  exact ⟨h.1 rfl, h.2.1 rfl, h.2.2 rfl⟩

/-- Evaluating an appended schedule is evaluating the first part and feeding
its composite into the second. -/
theorem applyOps_append (ev : Evaluator) (ops1 ops2 : List (Geometry × CSGOp)) (g : Geometry) :
    applyOps ev (ops1 ++ ops2) g = (applyOps ev ops1 g).bind (applyOps ev ops2) := by
  induction ops1 generalizing g with
  | nil => rfl
  | cons p rest ih =>
      simp only [List.cons_append, applyOps]
      cases ev g p.1 p.2 with
      | error e => rfl
      | ok g2 => exact ih g2

/-- The source's filler step is the schedule evaluation of the filler's
optional operand. -/
theorem fillerStep_eq_applyOps (ev : Evaluator) (filler : Option Mesh) (g0 : Geometry) :
    fillerStep ev filler g0 =
      applyOps ev (filler.bind (operandOf CSGOp.ADDITION)).toList g0 := by
  cases filler with
  | none => rfl
  | some f =>
      cases hg : f.geometry with
      | none => simp [fillerStep, operandOf, hg, applyOps]
      | some fg =>
          cases hprep : prepareGeometryForCSG fg with
          | none => simp [fillerStep, operandOf, hg, hprep, applyOps]
          | some pg =>
              cases hev : ev g0 (bakeOperand f pg) CSGOp.ADDITION <;>
                simp [fillerStep, operandOf, hg, hprep, applyOps, hev]

/-- The source's base-trim step is the schedule evaluation of the
base-trim's optional operand. -/
theorem baseTrimStep_eq_applyOps (ev : Evaluator) (baseTrim : Option Mesh) (g1 : Geometry) :
    baseTrimStep ev baseTrim g1 =
      applyOps ev (baseTrim.bind (operandOf CSGOp.SUBTRACTION)).toList g1 := by
  cases baseTrim with
  | none => rfl
  | some bt =>
      cases hg : bt.geometry with
      | none => simp [baseTrimStep, operandOf, hg, applyOps]
      | some bg =>
          cases hprep : prepareGeometryForCSG bg with
          | none => simp [baseTrimStep, operandOf, hg, hprep, applyOps]
          | some pg =>
              cases hev : ev g1 (bakeOperand bt pg) CSGOp.SUBTRACTION <;>
                simp [baseTrimStep, operandOf, hg, hprep, applyOps, hev]

/-- The source's screw loop is the schedule evaluation of the preparable
screw operands, in stored order. -/
theorem screwFoldl_eq_applyOps (ev : Evaluator) (screws : List Mesh)
    (acc : Except String Geometry) :
    screws.foldl (screwStep ev) acc =
      acc.bind (applyOps ev (screws.filterMap (operandOf CSGOp.SUBTRACTION))) := by
  induction screws generalizing acc with
  | nil => cases acc <;> rfl
  | cons m rest ih =>
      cases acc with
      | error e =>
          rw [List.foldl_cons, show screwStep ev (Except.error e) m = Except.error e from rfl, ih]
          rfl
      | ok r =>
          rw [List.foldl_cons, ih]
          cases hg : m.geometry with
          | none => simp [screwStep, operandOf, hg, List.filterMap_cons, Except.bind]
          | some sg =>
              cases hprep : prepareGeometryForCSG sg with
              | none => simp [screwStep, operandOf, hg, hprep, List.filterMap_cons, Except.bind]
              | some pg =>
                  cases hev : ev r (bakeOperand m pg) CSGOp.SUBTRACTION <;>
                    simp [screwStep, operandOf, hg, hprep, List.filterMap_cons, Except.bind,
                      applyOps, hev]

/-- Claim C1. The boolean phase applies its operations in a fixed order: the
normalized, baked user model is the initial composite (its preparation
failure aborting the run); then the whole phase evaluates exactly the
schedule `fuseOps`, namely the filler union (when the filler is present and
preparable) before any subtraction, then the base-trim subtraction (when
present and preparable), then one subtraction per entry of the screw-hole
collection in the collection's stored order, where an entry with a missing
geometry or a failing preparation is skipped without aborting the run. -/
theorem fusion_fixed_order (ev : Evaluator) (um : Mesh) (filler baseTrim : Option Mesh)
    (screws : List Mesh) :
    runBooleans ev um filler baseTrim screws =
      (prepUserModel um).bind (applyOps ev (fuseOps filler baseTrim screws)) := by
  cases hu : prepUserModel um with
  | error e => simp [runBooleans, hu, Except.bind]
  | ok g0 =>
      simp only [runBooleans, hu, fuseOps]
      rw [show (Except.ok g0 : Except String Geometry).bind
            (applyOps ev ((filler.bind (operandOf CSGOp.ADDITION)).toList ++
              (baseTrim.bind (operandOf CSGOp.SUBTRACTION)).toList ++
              screws.filterMap (operandOf CSGOp.SUBTRACTION))) =
          applyOps ev ((filler.bind (operandOf CSGOp.ADDITION)).toList ++
              (baseTrim.bind (operandOf CSGOp.SUBTRACTION)).toList ++
              screws.filterMap (operandOf CSGOp.SUBTRACTION)) g0 from rfl]
      rw [applyOps_append, applyOps_append]
      rw [← fillerStep_eq_applyOps ev filler g0]
      cases hf : fillerStep ev filler g0 with
      | error e => rfl
      | ok g1 =>
          dsimp only
          rw [show ((Except.ok g1 : Except String Geometry).bind
                (applyOps ev (baseTrim.bind (operandOf CSGOp.SUBTRACTION)).toList)) =
              applyOps ev (baseTrim.bind (operandOf CSGOp.SUBTRACTION)).toList g1 from rfl]
          rw [← baseTrimStep_eq_applyOps ev baseTrim g1]
          cases hb : baseTrimStep ev baseTrim g1 with
          | error e => rfl
          | ok g2 =>
              dsimp only
              rw [show ((Except.ok g2 : Except String Geometry).bind
                    (applyOps ev (screws.filterMap (operandOf CSGOp.SUBTRACTION)))) =
                  applyOps ev (screws.filterMap (operandOf CSGOp.SUBTRACTION)) g2 from rfl]
              rw [screwFoldl_eq_applyOps]
              rfl

/-- Claim C2. When the boolean phase of a fusion run throws (as a single
failing boolean evaluation does, the error propagating out of the chain),
the whole run fails and commits nothing: the resulting state differs from
the pre-call state only in the surfaced error instruction, so the user
model — geometry, position and rotation — the rig, the processed flag and
the export enablement are exactly as before the invocation, and no partial
composite is stored anywhere. -/
theorem boolean_failure_preserves_state (ev : Evaluator) (s : AppState) (um : Mesh)
    (msg : String)
    (hum : s.userModel = some um)
    (herr : runBooleans ev um s.rig.fillerTransform s.rig.baseTrim s.rig.screwMeshes =
      Except.error msg) :
    doProcessAndMerge ev s =
      { s with instruction := "Boolean failed: " ++ msg ++ ". Check console." } := by
  simp only [doProcessAndMerge, hum, herr]

/-- Mesh acting as the filler in the failing-evaluator scenario. -/
def fillerMeshT : Mesh :=
  { geometry := some triGeo, position := vzero, rotation := vzero, matrixWorld := identityMat4 }

/-- App state with a user model and a filler, so a fusion run reaches the
evaluator at least once. -/
def sWithFiller : AppState :=
  { userModel := some umT
    rig := { screwMeshes := [], baseTrim := none, fillerTransform := some fillerMeshT }
    isProcessed := false
    exportEnabled := false
    instruction := "" }

/-- Witness for C2: with an evaluator that throws on its single union, the
run leaves everything but the instruction line unchanged. -/
theorem boolean_failure_preserves_state_witness :
    doProcessAndMerge throwingEvaluator sWithFiller =
      { sWithFiller with instruction := "Boolean failed: degenerate operand. Check console." } :=
  boolean_failure_preserves_state throwingEvaluator sWithFiller umT "degenerate operand" rfl rfl

/-- Claim C3. On a successful fusion run the user model's geometry is
replaced in place by the cleaned composite — the boolean result after
welding and normal recomputation — and its position and rotation are reset
to identity (with the world matrix correspondingly identity, the result
being baked in world space); the run is marked processed and export becomes
enabled. -/
theorem fusion_success_commits (ev : Evaluator) (s : AppState) (um : Mesh) (res : Geometry)
    (hum : s.userModel = some um)
    (hok : runBooleans ev um s.rig.fillerTransform s.rig.baseTrim s.rig.screwMeshes =
      Except.ok res) :
    doProcessAndMerge ev s =
      { s with
        userModel := some { um with
          geometry := some (cleanupGeometry res)
          position := vzero
          rotation := vzero
          matrixWorld := identityMat4 }
        isProcessed := true
        exportEnabled := true
        instruction := "Processing complete! Click Export STL to download. Use Reset to start over." } := by
  simp only [doProcessAndMerge, hum, hok]

/-- Witness for C3: a run over the lone triangle user model commits the
cleaned baked triangle and resets the transform. -/
theorem fusion_success_commits_witness :
    doProcessAndMerge okEvaluator sT =
      { sT with
        userModel := some { umT with
          geometry := some (cleanupGeometry resT)
          position := vzero
          rotation := vzero
          matrixWorld := identityMat4 }
        isProcessed := true
        exportEnabled := true
        instruction := "Processing complete! Click Export STL to download. Use Reset to start over." } :=
  fusion_success_commits okEvaluator sT umT resT rfl rfl

/-- Claim C4. The cleanup stage always runs exactly two passes, in order:
first vertex welding at the fixed tolerance `1e-4` model units (merging
vertices within the tolerance and re-indexing triangles), then per-vertex
normal recomputation from the welded topology; the pre-weld normals are
discarded — the cleaned geometry does not depend on the normal channel the
fusion result carried — and the successful pipeline stores exactly this
two-pass cleanup of the boolean result. -/
theorem cleanup_two_passes :
    (∀ g : Geometry, cleanupGeometry g = computeVertexNormalsGeo (mergeVertices g (1 / 10000))) ∧
    (∀ (g : Geometry) (ps : List Vec3) (ns : Option (List Vec3)), g.position = some ps →
      cleanupGeometry { g with normal := ns } = cleanupGeometry g) ∧
    (∀ (ev : Evaluator) (s : AppState) (um : Mesh) (res : Geometry),
      s.userModel = some um →
      runBooleans ev um s.rig.fillerTransform s.rig.baseTrim s.rig.screwMeshes =
        Except.ok res →
      (doProcessAndMerge ev s).userModel.map Mesh.geometry = some (some (cleanupGeometry res))) := by
  refine ⟨fun g => rfl, ?_, ?_⟩
  · intro g ps ns hp
    obtain ⟨gp, gn, gu, gi⟩ := g
    simp only at hp
    subst hp
    simp [cleanupGeometry, mergeVertices, computeVertexNormalsGeo]
  · intro ev s um res hum hok
    simp [doProcessAndMerge, hum, hok, Mesh.geometry]

/-- Witness for C4: replacing the fusion result's normal channel does not
change the cleaned geometry, and the successful pipeline run stores the
cleaned composite. -/
theorem cleanup_two_passes_witness :
    cleanupGeometry { triGeo with normal := some [vzero, vzero, vzero] } =
      cleanupGeometry triGeo ∧
    (doProcessAndMerge okEvaluator sT).userModel.map Mesh.geometry =
      some (some (cleanupGeometry resT)) :=
  ⟨cleanup_two_passes.2.1 triGeo [⟨0, 0, 0⟩, ⟨1, 0, 0⟩, ⟨0, 1, 0⟩]
      (some [vzero, vzero, vzero]) rfl,
   cleanup_two_passes.2.2 okEvaluator sT umT resT rfl rfl⟩

/-- Claim C5. Exporting works on a clone: the exported geometry is exactly
the final working geometry with the user model's full current world matrix
baked in, followed by one additional +90° X rotation and nothing else — and
that rotation is the inverse of the −90° X working orientation offset, their
products in both orders being the identity. The working geometry itself is
not modified: `exportSTL` only reads the state. -/
theorem export_coordinate_correction (s : AppState) (um : Mesh) (g : Geometry)
    (ps : List Vec3)
    (hum : s.userModel = some um)
    (hproc : s.isProcessed = true)
    (hg : um.geometry = some g)
    (hp : g.position = some ps)
    (hne : ps.length ≠ 0) :
    exportSTL s = some (applyMatrix4 makeRotationX90 (applyMatrix4 um.matrixWorld g)) ∧
    matMul makeRotationX90 modelRotationOffsetMatrix = identityMat4 ∧
    matMul modelRotationOffsetMatrix makeRotationX90 = identityMat4 := by
  refine ⟨?_,
    by norm_num [matMul, makeRotationX90, modelRotationOffsetMatrix, identityMat4, Mat4.mk.injEq],
    by norm_num [matMul, makeRotationX90, modelRotationOffsetMatrix, identityMat4, Mat4.mk.injEq]⟩
  simp only [exportSTL, hum, hproc, hg, hp, if_true]
  simp [hne]

/-- App state after a processed run, ready for export. -/
def sProcessed : AppState :=
  { userModel := some umT
    rig := { screwMeshes := [], baseTrim := none, fillerTransform := none }
    isProcessed := true
    exportEnabled := true
    instruction := "" }

/-- Witness for C5: exporting the processed triangle state yields the
world-baked clone rotated by +90° about X, and the two rotation matrices
invert each other. -/
theorem export_coordinate_correction_witness :
    exportSTL sProcessed =
      some (applyMatrix4 makeRotationX90 (applyMatrix4 umT.matrixWorld triGeo)) ∧
    matMul makeRotationX90 modelRotationOffsetMatrix = identityMat4 ∧
    matMul modelRotationOffsetMatrix makeRotationX90 = identityMat4 :=
  export_coordinate_correction sProcessed umT triGeo [⟨0, 0, 0⟩, ⟨1, 0, 0⟩, ⟨0, 1, 0⟩]
    rfl rfl rfl rfl (by decide)

/-- Mesh whose geometry has no position buffer, standing for a deliberately
malformed base-trim operand. -/
def badTrimMesh : Mesh :=
  { geometry := some noPositionGeo, position := vzero, rotation := vzero,
    matrixWorld := identityMat4 }

/-- User model displaced by one unit along X, so the committed composite is
visibly different from the pre-call geometry. -/
def umMoved : Mesh :=
  { geometry := some triGeo, position := vzero, rotation := vzero, matrixWorld := translate1X }

/-- App state whose base-trim operand is malformed (no position buffer). -/
def sBadTrim : AppState :=
  { userModel := some umMoved
    rig := { screwMeshes := [], baseTrim := some badTrimMesh, fillerTransform := none }
    isProcessed := false
    exportEnabled := false
    instruction := "" }

/-- Counterexample to C6 as stated: with a base-trim whose geometry has no
position buffer, the run does not fail — it completes with the success
instruction, marks the state processed, and replaces the user model's
geometry, which is therefore not bit-identical to the pre-call geometry
(the stored composite carries a UV channel the pre-call geometry lacked). -/
theorem base_trim_malformed_no_failure :
    (doProcessAndMerge okEvaluator sBadTrim).isProcessed = true ∧
    (doProcessAndMerge okEvaluator sBadTrim).instruction =
      "Processing complete! Click Export STL to download. Use Reset to start over." ∧
    (doProcessAndMerge okEvaluator sBadTrim).userModel.map
        (fun m => (m.geometry.bind Geometry.uv).isSome) ≠
      sBadTrim.userModel.map (fun m => (m.geometry.bind Geometry.uv).isSome) := by
  refine ⟨rfl, rfl, ?_⟩
  have hpost : (doProcessAndMerge okEvaluator sBadTrim).userModel.map
      (fun m => (m.geometry.bind Geometry.uv).isSome) = some true := rfl
  have hpre : sBadTrim.userModel.map
      (fun m => (m.geometry.bind Geometry.uv).isSome) = some false := rfl
  intro h
  rw [hpost, hpre] at h
  simp at h

/-- Claim C6 as amended. A base-trim operand whose geometry preparation
fails (for example one with no position buffer) does not make `fuse` return
a failure: the base-trim subtraction step is skipped and the run proceeds
exactly as if no base-trim were present, so on success the user model's
geometry is replaced by the composite rather than staying bit-identical.
(The pre-call geometry stays untouched only when the run as a whole errors,
per the failure-rollback behavior of claim C2.) -/
theorem base_trim_unpreparable_skipped (ev : Evaluator) (um : Mesh) (filler : Option Mesh)
    (screws : List Mesh) (bt : Mesh)
    (hbt : bt.geometry.bind prepareGeometryForCSG = none) :
    runBooleans ev um filler (some bt) screws = runBooleans ev um filler none screws := by
  have hstep : ∀ acc, baseTrimStep ev (some bt) acc = baseTrimStep ev none acc := by
    intro acc
    dsimp only [baseTrimStep]
    cases hg : bt.geometry with
    | none => rfl
    | some bg =>
        have hpn : prepareGeometryForCSG bg = none := by simpa [hg] using hbt
        simp [hpn]
  simp only [runBooleans, hstep]

/-- Witness for the amended C6: the run over the displaced triangle with the
malformed base-trim equals the run with no base-trim at all. -/
theorem base_trim_unpreparable_skipped_witness :
    runBooleans okEvaluator umMoved none (some badTrimMesh) [] =
      runBooleans okEvaluator umMoved none none [] :=
  base_trim_unpreparable_skipped okEvaluator umMoved none [] badTrimMesh rfl

/-- Welding a two-vertex buffer whose vertices lie strictly within the
tolerance of each other keeps only the first vertex, remapping both slots
onto it. -/
theorem weldVertices_pair_close (tol : ℚ) (p q : Vec3) (h : distSq p q < tol * tol) :
    weldVertices tol [p, q] = ([0], [0, 0]) := by
  show (List.range 2).foldl (weldStep tol [p, q]) ([], []) = ([0], [0, 0])
  rw [show List.range 2 = [0, 1] from rfl, List.foldl_cons, List.foldl_cons, List.foldl_nil]
  dsimp only [weldStep, firstMatch, List.getD_cons_zero, List.getD_cons_succ]
  rw [if_pos h]
  rfl

/-- Welding a two-vertex buffer whose vertices lie strictly farther apart
than the tolerance keeps both vertices. -/
theorem weldVertices_pair_far (tol : ℚ) (p q : Vec3) (h : tol * tol < distSq p q) :
    weldVertices tol [p, q] = ([0, 1], [0, 1]) := by
  show (List.range 2).foldl (weldStep tol [p, q]) ([], []) = ([0, 1], [0, 1])
  rw [show List.range 2 = [0, 1] from rfl, List.foldl_cons, List.foldl_cons, List.foldl_nil]
  dsimp only [weldStep, firstMatch, List.getD_cons_zero, List.getD_cons_succ]
  rw [if_neg (lt_asymm h)]
  rfl

/-- Claim C7. After cleanup, two vertices whose positions differ by less
than the weld tolerance (distance strictly below `1e-4`, compared on
squares) are collapsed to one vertex, and two vertices whose positions
differ by more than the tolerance remain distinct, stated over a two-vertex
geometry as in the spec's acceptance examples (5e-5 collapses, 5e-3
stays). -/
theorem weld_pair_tolerance (g : Geometry) (p q : Vec3)
    (hp : g.position = some [p, q]) :
    (distSq p q < weldTolerance * weldTolerance →
      (cleanupGeometry g).position = some [p]) ∧
    (weldTolerance * weldTolerance < distSq p q →
      (cleanupGeometry g).position = some [p, q]) := by
  constructor <;> intro h
  · have hw := weldVertices_pair_close weldTolerance p q h
    rw [show cleanupGeometry g = computeVertexNormalsGeo (mergeVertices g weldTolerance) from rfl,
      computeVertexNormalsGeo_position]
    obtain ⟨gp, gn, gu, gi⟩ := g
    simp only at hp
    subst hp
    simp [mergeVertices, hw, gatherAt]
  · have hw := weldVertices_pair_far weldTolerance p q h
    rw [show cleanupGeometry g = computeVertexNormalsGeo (mergeVertices g weldTolerance) from rfl,
      computeVertexNormalsGeo_position]
    obtain ⟨gp, gn, gu, gi⟩ := g
    simp only at hp
    subst hp
    simp [mergeVertices, hw, gatherAt]

/-- Two-vertex geometry whose vertices sit 5e-5 apart, below the weld
tolerance. -/
def pairCloseGeo : Geometry :=
  { position := some [⟨0, 0, 0⟩, ⟨1 / 20000, 0, 0⟩]
    normal := none
    uv := none
    index := some [0, 1, 1] }

/-- Two-vertex geometry whose vertices sit 5e-3 apart, above the weld
tolerance. -/
def pairFarGeo : Geometry :=
  { position := some [⟨0, 0, 0⟩, ⟨1 / 200, 0, 0⟩]
    normal := none
    uv := none
    index := some [0, 1, 1] }

/-- Witness for C7: vertices 5e-5 apart collapse to one vertex under
cleanup; vertices 5e-3 apart survive as two. -/
theorem weld_pair_tolerance_witness :
    (cleanupGeometry pairCloseGeo).position = some [⟨0, 0, 0⟩] ∧
    (cleanupGeometry pairFarGeo).position = some [⟨0, 0, 0⟩, ⟨1 / 200, 0, 0⟩] :=
  ⟨(weld_pair_tolerance pairCloseGeo ⟨0, 0, 0⟩ ⟨1 / 20000, 0, 0⟩ rfl).1
      (by norm_num [distSq, weldTolerance]),
   (weld_pair_tolerance pairFarGeo ⟨0, 0, 0⟩ ⟨1 / 200, 0, 0⟩ rfl).2
      (by norm_num [distSq, weldTolerance])⟩

/-- Componentwise equality implies equality of vectors. -/
theorem vec3_eq_of_components (a b : Vec3)
    (hx : a.x = b.x) (hy : a.y = b.y) (hz : a.z = b.z) : a = b := by
  cases a
  cases b
  simp_all

/-- Componentwise minimum commutes with translation. -/
theorem vmin_vsub (a b c : Vec3) : vmin (vsub a c) (vsub b c) = vsub (vmin a b) c := by
  simp [vmin, vsub, Vec3.mk.injEq, min_sub_sub_right]

/-- Componentwise maximum commutes with translation. -/
theorem vmax_vsub (a b c : Vec3) : vmax (vsub a c) (vsub b c) = vsub (vmax a b) c := by
  simp [vmax, vsub, Vec3.mk.injEq, max_sub_sub_right]

/-- Folded componentwise minimum commutes with translating every vertex. -/
theorem foldl_vmin_map_vsub (c : Vec3) (ps : List Vec3) (a : Vec3) :
    (ps.map (fun v => vsub v c)).foldl vmin (vsub a c) = vsub (ps.foldl vmin a) c := by
  induction ps generalizing a with
  | nil => rfl
  | cons v rest ih => simp only [List.map_cons, List.foldl_cons, vmin_vsub, ih]

/-- Folded componentwise maximum commutes with translating every vertex. -/
theorem foldl_vmax_map_vsub (c : Vec3) (ps : List Vec3) (a : Vec3) :
    (ps.map (fun v => vsub v c)).foldl vmax (vsub a c) = vsub (ps.foldl vmax a) c := by
  induction ps generalizing a with
  | nil => rfl
  | cons v rest ih => simp only [List.map_cons, List.foldl_cons, vmax_vsub, ih]

/-- Translating every vertex translates the bounding-box center. -/
theorem bboxCenter_map_vsub (ps : List Vec3) (c : Vec3) (hne : ps ≠ []) :
    bboxCenter (ps.map (fun v => vsub v c)) = vsub (bboxCenter ps) c := by
  cases ps with
  | nil => exact absurd rfl hne
  | cons v rest =>
      simp only [List.map_cons, bboxCenter, foldl_vmin_map_vsub, foldl_vmax_map_vsub]
      refine vec3_eq_of_components _ _ ?_ ?_ ?_ <;> simp [vsub] <;> ring

/-- Centering a geometry with a known position buffer translates every
vertex by the negated bounding-box center. -/
theorem centerGeometry_position (g : Geometry) (ps : List Vec3)
    (hp : g.position = some ps) :
    (centerGeometry g).position = some (ps.map (fun v => vsub v (bboxCenter ps))) := by
  obtain ⟨gp, gn, gu, gi⟩ := g
  simp only at hp
  subst hp
  rfl

/-- Claim C10. On every successful STL import the parsed geometry is
recentered before use: the imported position buffer is the parsed one
translated by the negated bounding-box center, the bounding-box center of
the imported geometry is the origin, and whenever the scan was not already
centered its original model-space coordinates are not preserved. -/
theorem import_recenters (parsed : Geometry) (ps : List Vec3)
    (hp : parsed.position = some ps) (hne : ps ≠ []) :
    (importUserSTL parsed).position = some (ps.map (fun v => vsub v (bboxCenter ps))) ∧
    (importUserSTL parsed).position.map bboxCenter = some vzero ∧
    (bboxCenter ps ≠ vzero → (importUserSTL parsed).position ≠ some ps) := by
  have hpos : (importUserSTL parsed).position =
      some (ps.map (fun v => vsub v (bboxCenter ps))) :=
    centerGeometry_position (computeVertexNormalsGeo parsed) ps
      (by rw [computeVertexNormalsGeo_position, hp])
  refine ⟨hpos, ?_, ?_⟩
  · rw [hpos]
    dsimp only [Option.map]
    rw [bboxCenter_map_vsub ps (bboxCenter ps) hne]
    simp [vsub, vzero, Vec3.mk.injEq, sub_self]
  · intro hc h
    rw [hpos] at h
    have hmap := Option.some.inj h
    cases ps with
    | nil => exact hne rfl
    | cons v rest =>
        apply hc
        have hhead : vsub v (bboxCenter (v :: rest)) = v :=
          (List.cons.inj (by simpa using hmap)).1
        have hx := congrArg Vec3.x hhead
        have hy := congrArg Vec3.y hhead
        have hz := congrArg Vec3.z hhead
        simp [vsub, sub_eq_self] at hx hy hz
        exact vec3_eq_of_components _ _ hx hy hz

/-- Off-center two-triangle-vertex scan used by the C10 witness, bounding
box spanning `x ∈ [0, 2]`, so the center is at `x = 1`. -/
def offCenterGeo : Geometry :=
  { position := some [⟨0, 0, 0⟩, ⟨2, 0, 0⟩, ⟨1, 0, 0⟩]
    normal := none
    uv := none
    index := none }

/-- Witness for C10: importing the off-center scan recenters it at the
origin and changes its coordinates. -/
theorem import_recenters_witness :
    (importUserSTL offCenterGeo).position =
      some ([⟨0, 0, 0⟩, ⟨2, 0, 0⟩, ⟨1, 0, 0⟩].map
        (fun v => vsub v (bboxCenter [⟨0, 0, 0⟩, ⟨2, 0, 0⟩, ⟨1, 0, 0⟩]))) ∧
    (importUserSTL offCenterGeo).position.map bboxCenter = some vzero ∧
    (importUserSTL offCenterGeo).position ≠
      some [⟨0, 0, 0⟩, ⟨2, 0, 0⟩, ⟨1, 0, 0⟩] := by
  have h := import_recenters offCenterGeo [⟨0, 0, 0⟩, ⟨2, 0, 0⟩, ⟨1, 0, 0⟩] rfl (by simp)
  refine ⟨h.1, h.2.1, h.2.2 ?_⟩
  intro hzero
  have hx := congrArg Vec3.x hzero
  norm_num [bboxCenter, vmin, vmax, vzero] at hx

end MarylandPrep

